import Mathlib

/-!
Verification development for the UX Beauty Benchmark application (src/app.py).

The program fetches one web page, derives seven heuristic UX scores from
HTML/CSS signals, and ranks the result against five hardcoded reference
products.  This file gives a shallow embedding of its core:

* Python `str` values are modelled as `List Char` (a Python string is a
  sequence of code points; slicing such as `text[:50000]` is `List.take`).
* Python floats in this program only ever hold exact halves and small decimal
  fractions, so they are modelled as `ℚ`; the Python `round` builtin
  (round-half-to-even) is modelled exactly by `pyRound`.
* The two network calls (`requests.get` for the page, and per-stylesheet) are
  external I/O; they are passed in as oracles: the page fetch outcome as an
  `Except String Page` and the stylesheet fetcher as
  `String → Option (List Char)` (`none` = request failed / not ok).
* `BeautifulSoup` queries (`soup.find("nav")`, `soup.find("link", rel="icon")`,
  `soup.find(attrs={aria-label: True})`, the `<link rel="stylesheet">` href
  list) are external parsing-library calls; their results are fields of the
  `Page` record handed to the scorer, mirroring the collaborator split of §2.
* The regex scans of `count_colors` are embedded as explicit left-to-right
  scanners with the exact semantics of `re.findall` for the two patterns
  `#[0-9a-fA-F]{3,8}` and `rgb\(\s*\d+,\s*\d+,\s*\d+\s*\)` (leftmost,
  greedy, non-overlapping, resume after each match, advance one character
  after a failed attempt).
* `pandas` operations in `build_table` are embedded by their documented
  semantics: `DataFrame.sum(axis=1)` skips missing values (a column built
  from ints plus `None` becomes floats with `NaN`, and `sum` with the default
  `skipna=True` treats `NaN` as absent), `rank(method="min",
  ascending=False)` assigns `1 +` the number of strictly greater totals, and
  `sort_values(ascending=False)` sorts rows by descending total.
-/

/-- A Python `str` literal as its list of code points. -/
def pyStr (s : String) : List Char := s.data

/-- Membership of a character in the regex class `[0-9a-fA-F]`. -/
def hexDigit (c : Char) : Bool :=
  ('0' ≤ c && c ≤ '9') || ('a' ≤ c && c ≤ 'f') || ('A' ≤ c && c ≤ 'F')

/-- Scanner for `re.findall(r"#[0-9a-fA-F]{3,8}", css_text)` (src/app.py line
96).  At a `#` with at least 3 following hex digits the greedy quantifier
takes up to 8 of them and the scan resumes after the match; otherwise the scan
advances one character.  Fuel is the remaining input length, which bounds the
number of steps since every step consumes at least one character. -/
def findHexAux : Nat → List Char → List (List Char)
| 0, _ => []
| _+1, [] => []
| fuel+1, c :: rest =>
  if c = '#' then
    let ds := rest.takeWhile hexDigit
    if 3 ≤ ds.length then
      let m := ds.take 8
      ('#' :: m) :: findHexAux fuel (rest.drop m.length)
    else findHexAux fuel rest
  else findHexAux fuel rest

/-- All matches of the hex-color pattern in a text. -/
def findHex (l : List Char) : List (List Char) := findHexAux l.length l

/-- Membership of a character in the ASCII part of the regex class `\s`
(space, tab, newline, carriage return, vertical tab, form feed).  The colors
the analyzer is pointed at are ASCII CSS, so the non-ASCII members of `\s`
are irrelevant here. -/
def spaceChar (c : Char) : Bool :=
  c = ' ' || c = '\t' || c = '\n' || c = '\r' || c = '\x0b' || c = '\x0c'

/-- Membership of a character in the regex class `\d` (ASCII digits). -/
def digitChar (c : Char) : Bool := '0' ≤ c && c ≤ '9'

/-- Parse `\s*\d+` at the head of the input, returning the matched characters
and the rest.  `\s*` and `\d+` are greedy; since the character classes are
disjoint from what follows them in the pattern, greedy matching needs no
backtracking. -/
def rgbGroup (r0 : List Char) : Option (List Char × List Char) :=
  let s := r0.takeWhile spaceChar
  let r1 := r0.drop s.length
  let d := r1.takeWhile digitChar
  if d.length = 0 then none else some (s ++ d, r1.drop d.length)

/-- Try to match `rgb\(\s*\d+,\s*\d+,\s*\d+\s*\)` (src/app.py line 97) at the
head of the input, returning the matched characters. -/
def tryRgb : List Char → Option (List Char)
| 'r' :: 'g' :: 'b' :: '(' :: r0 =>
  match rgbGroup r0 with
  | none => none
  | some (m1, r1) =>
    match r1 with
    | ',' :: r2 =>
      match rgbGroup r2 with
      | none => none
      | some (m2, r3) =>
        match r3 with
        | ',' :: r4 =>
          match rgbGroup r4 with
          | none => none
          | some (m3, r5) =>
            let s4 := r5.takeWhile spaceChar
            match r5.drop s4.length with
            | ')' :: _ =>
              some ('r' :: 'g' :: 'b' :: '(' :: (m1 ++ ',' :: m2 ++ ',' :: m3 ++ s4 ++ [')']))
            | _ => none
        | _ => none
    | _ => none
| _ => none

/-- Scanner for `re.findall` of the rgb pattern: resume after each match
(every match is at least 10 characters long), advance one character after a
failed attempt.  Fuel as in `findHexAux`. -/
def findRgbAux : Nat → List Char → List (List Char)
| 0, _ => []
| _+1, [] => []
| fuel+1, c :: rest =>
  match tryRgb (c :: rest) with
  | some m => m :: findRgbAux fuel ((c :: rest).drop m.length)
  | none => findRgbAux fuel rest

/-- All matches of the rgb pattern in a text. -/
def findRgb (l : List Char) : List (List Char) := findRgbAux l.length l

/-- Embedding of `count_colors` (src/app.py lines 95-98): the number of distinct matched
color tokens, `len(set(hex_colors + rgb_colors))`, deduplicated as literal
strings. -/
def count_colors (css : List Char) : Nat :=
  ((findHex css) ++ (findRgb css)).dedup.length

/-- Embedding of `cohesion_from_colors` (src/app.py lines 100-105): the fixed threshold
step function from a distinct-color count to a cohesion score. -/
def cohesion_from_colors (color_count : Nat) : Int :=
  if color_count ≤ 6 then 10
  else if color_count ≤ 12 then 8
  else if color_count ≤ 24 then 6
  else if color_count ≤ 48 then 4
  else 2

/-- Model of the Python builtin `round` on exact values: round half to even.  All values this program rounds are exactly representable floats
(integers and halves), so the `ℚ` model is exact. -/
def pyRound (q : ℚ) : ℤ :=
  if q - (⌊q⌋ : ℚ) < 1/2 then ⌊q⌋
  else if 1/2 < q - (⌊q⌋ : ℚ) then ⌊q⌋ + 1
  else if ⌊q⌋ % 2 = 0 then ⌊q⌋ else ⌊q⌋ + 1

/-- Embedding of `clamp_score` (src/app.py lines 47-48):
`max(lo, min(hi, round(x)))`.
Every call site uses the default bounds `lo=1, hi=10`, which are inlined
here. -/
def clamp_score (x : ℚ) : ℤ := max 1 (min 10 (pyRound x))

/-- Python substring containment, `needle in haystack`. -/
def isPre : List Char → List Char → Bool
| [], _ => true
| _ :: _, [] => false
| a :: as, b :: bs => a == b && isPre as bs

/-- Python substring containment, `needle in haystack` (used for the
`":hover" in css_text` check on src/app.py line 124). -/
def hasSub (needle : List Char) : List Char → Bool
| [] => needle.isEmpty
| c :: rest => isPre needle (c :: rest) || hasSub needle rest

/-- Python `"\n".join(texts)` (src/app.py line 91). -/
def joinNl : List (List Char) → List Char
| [] => []
| [x] => x
| x :: y :: r => x ++ '\n' :: joinNl (y :: r)

/-- UTF-8 byte length of a text (used to relate the character-based
truncation of the code to the byte cap stated by the spec). -/
def utf8Len (l : List Char) : Nat := (l.map Char.utf8Size).sum

/-- The surviving stylesheet bodies of `fetch_css_assets` (src/app.py lines
81-90): of the first `limit` resolved hrefs, keep those whose request
succeeded with ok status and non-empty text (failures are swallowed by the
bare `except: pass`, and `if r.ok and r.text` drops the rest), each body
truncated to its first 50000 characters (`r.text[:50000]`). -/
def css_bodies (hrefs : List String) (fetchCss : String → Option (List Char))
    (limit : Nat) : List (List Char) :=
  (hrefs.take limit).filterMap (fun h =>
    match fetchCss h with
    | none => none
    | some [] => none
    | some t => some (t.take 50000))

/-- Embedding of `fetch_css_assets` (src/app.py lines 72-93): join the surviving bodies
with newline separators.  `hrefs` is the list of stylesheet URLs already
extracted from the markup and resolved against the base URL (the
BeautifulSoup/urljoin steps, external collaborators per §4.1); `fetchCss` is
the per-stylesheet request oracle. -/
def fetch_css_assets (hrefs : List String) (fetchCss : String → Option (List Char))
    (limit : Nat) : List Char :=
  joinNl (css_bodies hrefs fetchCss limit)

/-- The seven fixed UX factors, `UX_FACTORS` (src/app.py lines 36-44). -/
def UX_FACTORS : List String :=
  ["Simplicity", "Navigation Ease", "Personality", "Delight/Micro-Interactions",
   "Accessibility", "Speed & Responsiveness", "Emotional Resonance"]

/-- Embedding of `REFERENCE_BENCHMARKS` (src/app.py lines 19-35): the five fixed reference
rows, each a label (the `Product / UX Factor` entry of the dict) with its factor
scores. -/
def REFERENCE_BENCHMARKS : List (String × List (String × Int)) :=
  [("Apple iOS", [("Simplicity", 9), ("Navigation Ease", 9), ("Personality", 9),
     ("Delight/Micro-Interactions", 8), ("Accessibility", 8), ("Speed & Responsiveness", 9),
     ("Emotional Resonance", 9)]),
   ("Airbnb", [("Simplicity", 9), ("Navigation Ease", 9), ("Personality", 8),
     ("Delight/Micro-Interactions", 8), ("Accessibility", 9), ("Speed & Responsiveness", 9),
     ("Emotional Resonance", 8)]),
   ("Notion", [("Simplicity", 8), ("Navigation Ease", 8), ("Personality", 9),
     ("Delight/Micro-Interactions", 8), ("Accessibility", 8), ("Speed & Responsiveness", 8),
     ("Emotional Resonance", 9)]),
   ("Tesla UI", [("Simplicity", 8), ("Navigation Ease", 9), ("Personality", 9),
     ("Delight/Micro-Interactions", 9), ("Accessibility", 7), ("Speed & Responsiveness", 9),
     ("Emotional Resonance", 9)]),
   ("Figma", [("Simplicity", 8), ("Navigation Ease", 9), ("Personality", 8),
     ("Delight/Micro-Interactions", 9), ("Accessibility", 8), ("Speed & Responsiveness", 10),
     ("Emotional Resonance", 8)])]

/-- The successful result of `fetch_html` together with the structural facts
the scorer reads off the parsed markup (src/app.py lines 62-68 and the
BeautifulSoup queries on lines 114, 122, 123, 125): presence of a `<nav>`
element, of a `<link rel="icon">` element, of any element with an
`aria-label` attribute, and the resolved `<link rel="stylesheet">` hrefs. -/
structure Page where
  final_url : String
  status : Nat
  elapsed : ℚ
  size : Nat
  hasNav : Bool
  hasIconLink : Bool
  hasAriaLabel : Bool
  cssHrefs : List String

/-- Python `round(x, n)` on the exact decimal values used for display. -/
def roundTo (q : ℚ) (n : Nat) : ℚ := ((pyRound (q * 10 ^ n) : ℚ)) / 10 ^ n

/-- The diagnostics dict built by `analyze_site` (src/app.py lines 130-137). -/
structure Debug where
  final_url : String
  status : Nat
  load_time : ℚ
  size_kb : ℚ
  colors_found : Nat
  palette_cohesion : Int

/-- Embedding of `analyze_site` (src/app.py lines 107-138).  The Python function returns
the pair `(None, error_string)` when `fetch_html` failed and
`(scores, debug)` otherwise; this is modelled as
`Except String (scores × debug)`, with the page-fetch outcome passed in as
`res` and the stylesheet requests as the `fetchCss` oracle.  The stylesheet
limit is the source default `limit=3`. -/
def analyze_site (res : Except String Page)
    (fetchCss : String → Option (List Char)) :
    Except String (List (String × Int) × Debug) :=
  match res with
  | Except.error e => Except.error e
  | Except.ok page =>
    let css_text := fetch_css_assets page.cssHrefs fetchCss 3
    let palette_count := count_colors css_text
    let cohesion := cohesion_from_colors palette_count
    Except.ok
      ([("Simplicity", clamp_score (((cohesion : ℚ) + 8) / 2)),
        ("Navigation Ease", clamp_score (5 + (if page.hasNav then (1:ℚ) else 0))),
        ("Personality",
          clamp_score (((cohesion : ℚ) + (if page.hasIconLink then (1:ℚ) else 0) + 6) / 2)),
        ("Delight/Micro-Interactions",
          clamp_score (5 + (if hasSub (pyStr (":hover")) css_text then (1:ℚ) else 0))),
        ("Accessibility", clamp_score (6 + (if page.hasAriaLabel then (1:ℚ) else 0))),
        ("Speed & Responsiveness", clamp_score (if page.elapsed < 1 then (10:ℚ) else 7)),
        ("Emotional Resonance", clamp_score (((cohesion : ℚ) + 8) / 2))],
       Debug.mk page.final_url page.status (roundTo page.elapsed 3)
         (roundTo ((page.size : ℚ) / 1024) 1) palette_count cohesion)

/-- The ScoreSet component of an analysis outcome. -/
def scoresOf (r : Except String (List (String × Int) × Debug)) :
    Option (List (String × Int)) :=
  r.toOption.map Prod.fst

/-- One row of the benchmark table: label, the seven factor values in
`UX_FACTORS` order (`none` = missing, pandas `NaN`), the `Total / 70` column
and the `Rank` column. -/
structure TRow where
  label : String
  vals : List (Option Int)
  total : Int
  rank : Nat
deriving DecidableEq

/-- Row comparison used by the descending `sort_values`. -/
def rowGe (a b : TRow) : Prop := b.total ≤ a.total

instance : DecidableRel rowGe :=
  fun a b => inferInstanceAs (Decidable (b.total ≤ a.total))

instance : IsTotal TRow rowGe := ⟨fun a b => le_total b.total a.total⟩

instance : IsTrans TRow rowGe := ⟨fun _ _ _ h1 h2 => le_trans h2 h1⟩

/-- Embedding of `df[UX_FACTORS].sum(axis=1)` (src/app.py line 153): pandas stores a
column built from ints and `None` as floats with `NaN` and sums with the
default `skipna=True`, so the row total is the sum of the present values. -/
def rowTotal (vals : List (Option Int)) : Int := (vals.filterMap id).sum

/-- Embedding of the rank column
`df["Total / 70"].rank(method="min", ascending=False).astype(int)`
(src/app.py line 154): the rank of a total is one plus the number of strictly
greater totals, so tied totals share the minimum rank of their group. -/
def rank_of (totals : List Int) (t : Int) : Nat :=
  1 + (totals.filter (fun u => t < u)).length

/-- The `rows` list of `build_table` (src/app.py lines 141-150): the five
reference rows copied key by key in `UX_FACTORS` order, then the target row
built with `target_scores.get(f, None)`. -/
def baseRows (refs : List (String × List (String × Int))) (label : String)
    (target : String → Option Int) : List (String × List (Option Int)) :=
  (refs.map (fun r => (r.1, UX_FACTORS.map (fun f => r.2.lookup f)))) ++
    [(label, UX_FACTORS.map target)]

/-- The data frame after the `Total / 70` and `Rank` columns are added
(src/app.py lines 152-154). -/
def rankedRows (refs : List (String × List (String × Int))) (label : String)
    (target : String → Option Int) : List TRow :=
  (baseRows refs label target).map (fun r =>
    TRow.mk r.1 r.2 (rowTotal r.2)
      (rank_of ((baseRows refs label target).map (fun b => rowTotal b.2)) (rowTotal r.2)))

/-- Embedding of `build_table` (src/app.py lines 140-155) reading its reference rows from
an explicit state argument (the module-level `REFERENCE_BENCHMARKS` binding):
rank the rows, then `sort_values(by="Total / 70", ascending=False)`. -/
def build_table_from (refs : List (String × List (String × Int))) (label : String)
    (target : String → Option Int) : List TRow :=
  List.insertionSort rowGe (rankedRows refs label target)

/-- Embedding of `build_table(target_label, target_scores)` as called by the app, on the
fixed reference dataset. -/
def build_table (label : String) (target : String → Option Int) : List TRow :=
  build_table_from REFERENCE_BENCHMARKS label target

/-- The driver path of the UI (src/app.py lines 170-189): run the analysis;
on `(None, error)` show the error and stop — the table is never built — and
otherwise build the benchmark table from the returned scores
(`target_scores.get` is the lookup into the scores dict). -/
def run_app (res : Except String Page) (fetchCss : String → Option (List Char))
    (label : String) : Except String (List TRow) :=
  match analyze_site res fetchCss with
  | Except.error e => Except.error e
  | Except.ok (scores, _) => Except.ok (build_table label (fun f => scores.lookup f))

/-- The mutable-global state of the module: the value of the
`REFERENCE_BENCHMARKS` binding. -/
def RefState := List (String × List (String × Int))

/-- Embedding of `analyze_site` as a state transformer on the reference dataset: the
source function never assigns to `REFERENCE_BENCHMARKS` or to any of its
dicts, so the state passes through. -/
def analyze_site_st (st : RefState) (res : Except String Page)
    (fetchCss : String → Option (List Char)) :
    Except String (List (String × Int) × Debug) × RefState :=
  (analyze_site res fetchCss, st)

/-- Embedding of `build_table` as a state transformer on the reference dataset: the loop
on src/app.py lines 142-146 builds fresh row dicts (`row = {...}`) and only
reads `ref[f]`, so the state passes through. -/
def build_table_st (st : RefState) (label : String) (target : String → Option Int) :
    List TRow × RefState :=
  (build_table_from st label target, st)

/-- One user-visible operation of the app. -/
inductive AppOp where
  | analyzeOp : Except String Page → (String → Option (List Char)) → AppOp
  | buildOp : String → (String → Option Int) → AppOp

/-- Run a sequence of operations, threading the reference-dataset state. -/
def run_ops : RefState → List AppOp → RefState
| st, [] => st
| st, AppOp.analyzeOp res f :: rest => run_ops (analyze_site_st st res f).2 rest
| st, AppOp.buildOp l ts :: rest => run_ops (build_table_st st l ts).2 rest

/-! ## Concrete inputs used by the scenario claims -/

/-- A stylesheet body of 30000 two-byte characters (60000 UTF-8 bytes). -/
def c6body : List Char := 'é' :: List.replicate 29999 'é'

/-- A stylesheet fetch oracle returning that body. -/
def c6fetch : String → Option (List Char) := fun _ => some c6body

/-- The stylesheet text of the §8 scenario: `a:hover` followed by braces
enclosing `color:#123456`. -/
def c1css : List Char := pyStr ("a:hover\x7bcolor:#123456\x7d")

/-- The §8 scenario page: markup with a `<nav>` element, a
`<link rel="icon">` element and an `aria-label` attribute, one linked
stylesheet, fetched in 0.3 seconds. -/
def c1page : Page :=
  Page.mk ("https://site.example/") 200 (3/10) 1000 true true true
    [("https://site.example/style.css")]

/-- The stylesheet fetch oracle of the §8 scenario, serving `c1css`. -/
def c1fetch : String → Option (List Char) := fun _ => some c1css

/-- The ScoreSet the code actually produces on the §8 scenario. -/
def c1actual : List (String × Int) :=
  [("Simplicity", 9), ("Navigation Ease", 6), ("Personality", 8),
   ("Delight/Micro-Interactions", 6), ("Accessibility", 7),
   ("Speed & Responsiveness", 10), ("Emotional Resonance", 9)]

/-- The ScoreSet the claim asserts for the §8 scenario (Personality 9). -/
def c1claimed : List (String × Int) :=
  [("Simplicity", 9), ("Navigation Ease", 6), ("Personality", 9),
   ("Delight/Micro-Interactions", 6), ("Accessibility", 7),
   ("Speed & Responsiveness", 10), ("Emotional Resonance", 9)]

/-- A plain page with no structural signals, no stylesheets, fetched in 2
seconds (used to witness the ScoreSet invariants). -/
def c8page : Page := Page.mk ("https://w.example/") 200 2 0 false false false []

/-- A stylesheet fetch oracle on which every request fails. -/
def c8fetch : String → Option (List Char) := fun _ => none

/-- The ScoreSet produced for `c8page`. -/
def c8scores : List (String × Int) :=
  [("Simplicity", 9), ("Navigation Ease", 5), ("Personality", 8),
   ("Delight/Micro-Interactions", 5), ("Accessibility", 6),
   ("Speed & Responsiveness", 7), ("Emotional Resonance", 9)]

/-! ## Helper lemmas -/

/-- Characterization of `pyRound` once the integer part is known. -/
theorem pyRound_eq (q : ℚ) (n : ℤ) (h1 : (n : ℚ) ≤ q) (h2 : q < n + 1) :
    pyRound q = if q - n < 1/2 then n else if 1/2 < q - (n:ℚ) then n + 1
      else if n % 2 = 0 then n else n + 1 := by
  have hf : ⌊q⌋ = n := by rw [Int.floor_eq_iff]; exact ⟨h1, by exact_mod_cast h2⟩
  simp [pyRound, hf]

/-- Evaluation of `pyRound` at integers: it is the identity there. -/
theorem pyRound_int (n : ℤ) : pyRound (n : ℚ) = n := by
  rw [pyRound_eq (n:ℚ) n (le_refl _) (by norm_num)]
  norm_num

/-- Bounds of `clamp_score`: it always lands in `[1, 10]`. -/
theorem clamp_bounds (q : ℚ) : 1 ≤ clamp_score q ∧ clamp_score q ≤ 10 := by
  simp only [clamp_score]
  omega

/-- Evaluation of `clamp_score` at an integer-valued argument. -/
theorem clamp_score_int (q : ℚ) (n : ℤ) (h : q = (n : ℚ)) :
    clamp_score q = max 1 (min 10 n) := by
  rw [h, clamp_score, pyRound_int]

/-! ## C3 -/

/-- C3: `countColors` deduplicates color tokens as literal strings.  On CSS
text containing the colors `#fff, #fff, rgb(1,2,3)` the result is 2; the
duplicate `#fff` counts once no matter where it occurs; `#fff` and `#ffffff`
are different literal strings and count separately; and in general the count
is the cardinality of the set of matched tokens, so duplicate occurrences
never count twice. -/
theorem C3_count_colors_dedup :
    count_colors (pyStr ("#fff, #fff, rgb(1,2,3)")) = 2 ∧
    count_colors (pyStr ("rgb(1,2,3) #fff #fff")) = 2 ∧
    count_colors (pyStr ("#fff rgb(1,2,3) #fff")) = 2 ∧
    count_colors (pyStr ("#fff #ffffff")) = 2 ∧
    ∀ css : List Char,
      count_colors css = ((findHex css) ++ (findRgb css)).toFinset.card :=
  ⟨by decide, by decide, by decide, by decide,
   fun css => (List.card_toFinset _).symm⟩

/-! ## C4 -/

/-- The cohesion score takes only the five listed values. -/
theorem cohesion_mem (c : Nat) :
    cohesion_from_colors c = 10 ∨ cohesion_from_colors c = 8 ∨
    cohesion_from_colors c = 6 ∨ cohesion_from_colors c = 4 ∨
    cohesion_from_colors c = 2 := by
  simp only [cohesion_from_colors]
  split_ifs <;> tauto

/-- The cohesion score is non-increasing in the color count. -/
theorem cohesion_antitone {c d : Nat} (h : c ≤ d) :
    cohesion_from_colors d ≤ cohesion_from_colors c := by
  simp only [cohesion_from_colors]
  split_ifs <;> omega

/-- C4: for every color count, `cohesionFromColors` is one of
`{10, 8, 6, 4, 2}`, is non-increasing, and follows the fixed thresholds
`≤6 → 10`, `≤12 → 8`, `≤24 → 6`, `≤48 → 4`, else `2`. -/
theorem C4_cohesion_steps (c d : Nat) :
    (cohesion_from_colors c = 10 ∨ cohesion_from_colors c = 8 ∨
     cohesion_from_colors c = 6 ∨ cohesion_from_colors c = 4 ∨
     cohesion_from_colors c = 2) ∧
    (c ≤ d → cohesion_from_colors d ≤ cohesion_from_colors c) ∧
    (c ≤ 6 → cohesion_from_colors c = 10) ∧
    (6 < c → c ≤ 12 → cohesion_from_colors c = 8) ∧
    (12 < c → c ≤ 24 → cohesion_from_colors c = 6) ∧
    (24 < c → c ≤ 48 → cohesion_from_colors c = 4) ∧
    (48 < c → cohesion_from_colors c = 2) := by
  refine ⟨cohesion_mem c, fun h => cohesion_antitone h, ?_, ?_, ?_, ?_, ?_⟩ <;>
    (intros; simp only [cohesion_from_colors]; split_ifs <;> omega)

/-- Witness for C4 at the concrete inputs 7 and 13. -/
theorem C4_cohesion_steps_witness :
    cohesion_from_colors 13 ≤ cohesion_from_colors 7 ∧ cohesion_from_colors 7 = 8 :=
  ⟨(C4_cohesion_steps 7 13).2.1 (by norm_num),
   (C4_cohesion_steps 7 13).2.2.2.1 (by norm_num) (by norm_num)⟩

/-! ## C5 -/

/-- C5: every clamped score lies in `[1, 10]` and equals the rounded value
saturated to those bounds (`round` being the round-half-to-even of Python, the
language default the implementation uses). -/
theorem C5_clamp_bounds_round (q : ℚ) :
    1 ≤ clamp_score q ∧ clamp_score q ≤ 10 ∧
    clamp_score q = max 1 (min 10 (pyRound q)) :=
  ⟨(clamp_bounds q).1, (clamp_bounds q).2, rfl⟩

/-! ## C2 -/

/-- C2 as stated is false: `rank(method="min")` is a minimum-rank competition
ranking, not a dense ranking.  The reference rows already tie at total 60
(Airbnb, Tesla UI, Figma), so with a target of all-1 scores the row with
total 58 gets rank 5 where a dense ranking would give it rank 3, and the
target gets rank 6 where a dense ranking would give 4. -/
theorem C2_rank_not_dense :
    ¬ (∀ r ∈ build_table ("Target Site") (fun _ => some 1),
        r.rank = 1 + ((((build_table ("Target Site") (fun _ => some 1)).map TRow.total).dedup.filter
          (fun u => r.total < u)).length)) := by decide

/-- C2 (amended): for every label and scores mapping, `buildTable` returns
exactly 6 rows (5 reference + 1 target), sorted by descending Total, and the
Rank of every row is the minimum-rank competition ranking over Total in
descending order: one plus the number of rows with strictly greater Total.
Tied totals share the minimum rank of their group, but ranks after a tied
group are skipped, so the ranking is not dense when ties occur. -/
theorem C2_table_shape_and_min_rank (label : String) (ts : String → Option Int) :
    (build_table label ts).length = 6 ∧
    List.Sorted rowGe (build_table label ts) ∧
    ∀ r ∈ build_table label ts,
      r.rank = 1 + (((build_table label ts).map TRow.total).filter
        (fun u => r.total < u)).length := by
  have hperm : (build_table label ts).Perm (rankedRows REFERENCE_BENCHMARKS label ts) :=
    List.perm_insertionSort rowGe _
  refine ⟨?_, List.sorted_insertionSort rowGe _, ?_⟩
  · rw [hperm.length_eq]
    simp [rankedRows, baseRows, REFERENCE_BENCHMARKS]
  · intro r hr
    have hr' : r ∈ rankedRows REFERENCE_BENCHMARKS label ts := hperm.subset hr
    obtain ⟨b, hb, rfl⟩ := List.mem_map.1 hr'
    have htot : ((build_table label ts).map TRow.total).Perm
        ((baseRows REFERENCE_BENCHMARKS label ts).map (fun bb => rowTotal bb.2)) := by
      have h := hperm.map TRow.total
      rw [rankedRows, List.map_map] at h
      exact h
    have hflen := (htot.filter (fun u => rowTotal b.2 < u)).length_eq
    show rank_of _ (rowTotal b.2) = _
    rw [rank_of, hflen]

/-- Witness for C2 at a concrete label and scores mapping, instantiating the
rank property at the Apple iOS row of the resulting table. -/
theorem C2_table_shape_witness :
    (build_table ("Target Site") (fun _ => some 1)).length = 6 ∧
    (TRow.mk ("Apple iOS") [some 9, some 9, some 9, some 8, some 8, some 9, some 9] 61 1).rank =
      1 + ((((build_table ("Target Site") (fun _ => some 1)).map TRow.total).filter
        (fun u => (TRow.mk ("Apple iOS") [some 9, some 9, some 9, some 8, some 8, some 9, some 9]
          61 1).total < u)).length) :=
  ⟨(C2_table_shape_and_min_rank ("Target Site") (fun _ => some 1)).1,
   (C2_table_shape_and_min_rank ("Target Site") (fun _ => some 1)).2.2 _ (by decide)⟩

/-! ## C10 -/

/-- C10: for every scores mapping with one or more of the 7 factors missing,
`buildTable` still returns a table (the embedding is total, as is the pandas
pipeline: a column built from ints and `None` holds `NaN` for the missing
entries), the target row carries the missing factors as absent values, and
its Total sums exactly the present factors (missing treated as 0). -/
theorem C10_missing_factors (label : String) (ts : String → Option Int)
    (_hmiss : ∃ f, f ∈ UX_FACTORS ∧ ts f = none) :
    ∃ r ∈ build_table label ts, r.label = label ∧ r.vals = UX_FACTORS.map ts ∧
      r.total = (UX_FACTORS.filterMap ts).sum := by
  refine ⟨TRow.mk label (UX_FACTORS.map ts) (rowTotal (UX_FACTORS.map ts))
    (rank_of ((baseRows REFERENCE_BENCHMARKS label ts).map (fun b => rowTotal b.2))
      (rowTotal (UX_FACTORS.map ts))), ?_, rfl, rfl, ?_⟩
  · have hbase : (label, UX_FACTORS.map ts) ∈ baseRows REFERENCE_BENCHMARKS label ts := by
      simp [baseRows]
    exact ((List.perm_insertionSort rowGe _).mem_iff).2
      (List.mem_map.2 ⟨(label, UX_FACTORS.map ts), hbase, rfl⟩)
  · show rowTotal (UX_FACTORS.map ts) = _
    rw [rowTotal, List.filterMap_map]
    rfl

/-- Witness for C10 with a concrete mapping that lacks the Simplicity
factor. -/
theorem C10_missing_factors_witness :
    ∃ r ∈ build_table ("target.example") (fun f => if f = "Simplicity" then none else some 5),
      r.label = ("target.example") ∧
      r.vals = UX_FACTORS.map (fun f => if f = "Simplicity" then none else some 5) ∧
      r.total = (UX_FACTORS.filterMap (fun f => if f = "Simplicity" then none else some 5)).sum :=
  C10_missing_factors ("target.example") (fun f => if f = "Simplicity" then none else some 5)
    ⟨"Simplicity", by decide, by decide⟩

/-! ## C9 -/

/-- Any sequence of analyze/build operations leaves the reference-dataset
state unchanged. -/
theorem run_ops_id (ops : List AppOp) : ∀ st : RefState, run_ops st ops = st := by
  induction ops with
  | nil => intro st; rfl
  | cons op rest ih =>
    intro st
    cases op with
    | analyzeOp res f => exact ih st
    | buildOp l ts => exact ih st

/-- C9: analyzing any target and building its benchmark table never mutates
the five fixed reference rows: each operation returns the reference-dataset
state unchanged, and after any sequence of analyze/buildTable calls the
dataset still equals `REFERENCE_BENCHMARKS`. -/
theorem C9_reference_rows_immutable (ops : List AppOp) (st : RefState) :
    run_ops st ops = st ∧
    run_ops REFERENCE_BENCHMARKS ops = REFERENCE_BENCHMARKS ∧
    (∀ res f, (analyze_site_st st res f).2 = st) ∧
    (∀ l ts, (build_table_st st l ts).2 = st) :=
  ⟨run_ops_id ops st, run_ops_id ops REFERENCE_BENCHMARKS,
   fun _ _ => rfl, fun _ _ => rfl⟩

/-! ## C6 -/

/-- C6 (amended): `fetchStylesheets` keeps at most `limit` bodies, truncates
each surviving body to its first 50000 characters, and joins the survivors
with newline separators. -/
theorem C6_fetch_css_shape (hrefs : List String) (f : String → Option (List Char))
    (limit : Nat) :
    (css_bodies hrefs f limit).length ≤ limit ∧
    (∀ b ∈ css_bodies hrefs f limit, b.length ≤ 50000) ∧
    fetch_css_assets hrefs f limit = joinNl (css_bodies hrefs f limit) := by
  refine ⟨?_, ?_, rfl⟩
  · exact le_trans (List.length_filterMap_le _ _) (List.length_take_le limit hrefs)
  · intro b hb
    obtain ⟨h, _, hg⟩ := List.mem_filterMap.1 hb
    rcases hf : f h with _ | t
    · rw [hf] at hg
      simp at hg
    · rcases t with _ | ⟨c, t'⟩
      · rw [hf] at hg
        simp at hg
      · rw [hf] at hg
        simp only [Option.some.injEq] at hg
        rw [← hg]
        exact List.length_take_le 50000 (c :: t')

/-- Witness for C6 at a concrete href list and fetch oracle. -/
theorem C6_fetch_css_shape_witness :
    (css_bodies ["https://a.example/x.css", "https://a.example/y.css"]
      (fun _ => some (pyStr ("body"))) 3).length ≤ 3 ∧
    (pyStr ("body")).length ≤ 50000 :=
  ⟨(C6_fetch_css_shape ["https://a.example/x.css", "https://a.example/y.css"]
      (fun _ => some (pyStr ("body"))) 3).1,
   (C6_fetch_css_shape ["https://a.example/x.css", "https://a.example/y.css"]
      (fun _ => some (pyStr ("body"))) 3).2.1 _ (by decide)⟩

/-- UTF-8 byte length of a cons cell. -/
theorem utf8Len_cons (c : Char) (l : List Char) :
    utf8Len (c :: l) = c.utf8Size + utf8Len l := by
  simp [utf8Len]

/-- UTF-8 byte length of a repeated character. -/
theorem utf8Len_replicate (n : Nat) (c : Char) :
    utf8Len (List.replicate n c) = n * c.utf8Size := by
  induction n with
  | zero => simp [utf8Len]
  | succ k ih =>
    rw [List.replicate_succ, utf8Len_cons, ih, Nat.succ_mul]
    omega

/-- C6 as stated is false at this input: the claim says each fetched body is
truncated to a cap of 50000 bytes, but the code slices `r.text[:50000]`,
which is 50000 characters of the decoded text.  A 30000-character body of
two-byte characters passes through untruncated and the resulting CSS text is
60000 UTF-8 bytes long, breaching the claimed byte cap. -/
theorem C6_truncation_not_bytes :
    fetch_css_assets [("u")] c6fetch 3 = c6body ∧ 50000 < utf8Len c6body := by
  have hlen : c6body.length = 30000 := by
    rw [show c6body = 'é' :: List.replicate 29999 'é' from rfl, List.length_cons,
      List.length_replicate]
  have htake : c6body.take 50000 = c6body := List.take_of_length_le (by omega)
  constructor
  · have h1 : css_bodies [("u")] c6fetch 3 = [c6body.take 50000] := rfl
    rw [htake] at h1
    show joinNl (css_bodies [("u")] c6fetch 3) = c6body
    rw [h1]
    rfl
  · have h2 : utf8Len c6body = 60000 := by
      rw [show c6body = 'é' :: List.replicate 29999 'é' from rfl]
      rw [utf8Len_cons, utf8Len_replicate, show ('é').utf8Size = 2 from rfl]
    omega

/-! ## C7 -/

/-- C7: only a failure of the primary page fetch is fatal.  When the page fetch
fails, `analyze` returns the error message (the Python `(None, error)` pair),
the driver propagates it and the benchmark table is never built; when the
page fetch succeeds, `analyze` succeeds for every stylesheet-fetch oracle —
individual stylesheet failures are swallowed inside `fetch_css_assets` and
only shrink the CSS text. -/
theorem C7_page_fetch_failure_fatal :
    (∀ (e : String) (f : String → Option (List Char)) (l : String),
      run_app (Except.error e) f l = Except.error e) ∧
    (∀ (e : String) (f : String → Option (List Char)),
      analyze_site (Except.error e) f = Except.error e) ∧
    (∀ (page : Page) (f : String → Option (List Char)),
      ∃ s d, analyze_site (Except.ok page) f = Except.ok (s, d)) :=
  ⟨fun _ _ _ => rfl, fun _ _ => rfl, fun _ _ => ⟨_, _, rfl⟩⟩

/-! ## C1 and C8: evaluation of the scorer -/

/-- Unfolding of `analyze_site` on a successful page fetch: the ScoreSet is the
seven-entry dict of clamped formula values, in source order. -/
theorem analyze_ok (page : Page) (f : String → Option (List Char)) :
    scoresOf (analyze_site (Except.ok page) f) =
      some [("Simplicity", clamp_score
              (((cohesion_from_colors (count_colors (fetch_css_assets page.cssHrefs f 3)) : ℚ) + 8) / 2)),
        ("Navigation Ease", clamp_score (5 + (if page.hasNav then (1:ℚ) else 0))),
        ("Personality", clamp_score
          (((cohesion_from_colors (count_colors (fetch_css_assets page.cssHrefs f 3)) : ℚ) +
            (if page.hasIconLink then (1:ℚ) else 0) + 6) / 2)),
        ("Delight/Micro-Interactions", clamp_score
          (5 + (if hasSub (pyStr (":hover")) (fetch_css_assets page.cssHrefs f 3) then (1:ℚ) else 0))),
        ("Accessibility", clamp_score (6 + (if page.hasAriaLabel then (1:ℚ) else 0))),
        ("Speed & Responsiveness", clamp_score (if page.elapsed < 1 then (10:ℚ) else 7)),
        ("Emotional Resonance", clamp_score
          (((cohesion_from_colors (count_colors (fetch_css_assets page.cssHrefs f 3)) : ℚ) + 8) / 2))] :=
  rfl

/-- Full evaluation of the scorer on the §8 scenario.  The single color
`#123456` gives cohesion 10; Personality is
`round((10 + 1 + 6) / 2) = round(8.5) = 8` under the Python
round-half-to-even rule. -/
theorem c1_eval : scoresOf (analyze_site (Except.ok c1page) c1fetch) = some c1actual := by
  rw [analyze_ok]
  have hcss : fetch_css_assets c1page.cssHrefs c1fetch 3 = c1css := by decide
  rw [hcss]
  rw [show count_colors c1css = 1 from by decide]
  rw [show cohesion_from_colors 1 = 10 from by decide]
  rw [show hasSub (pyStr (":hover")) c1css = true from by decide]
  simp only [c1page]
  rw [if_pos (show ((3:ℚ)/10) < 1 by norm_num)]
  simp only [if_true]
  have v1 : clamp_score ((((10:ℤ):ℚ) + 8) / 2) = 9 := by
    rw [clamp_score_int _ 9 (by norm_num)]; decide
  have v2 : clamp_score ((5:ℚ) + 1) = 6 := by
    rw [clamp_score_int _ 6 (by norm_num)]; decide
  have v3 : clamp_score ((((10:ℤ):ℚ) + 1 + 6) / 2) = 8 := by
    rw [clamp_score, pyRound_eq _ 8 (by norm_num) (by norm_num)]
    norm_num
  have v4 : clamp_score ((6:ℚ) + 1) = 7 := by
    rw [clamp_score_int _ 7 (by norm_num)]; decide
  have v5 : clamp_score (10:ℚ) = 10 := by
    rw [clamp_score_int _ 10 (by norm_num)]; decide
  rw [v1, v2, v3, v4, v5]
  rfl

/-- C1 as stated is false: on the §8 scenario the code does not return the
claimed ScoreSet, because Personality is `round(8.5) = 8` (Python rounds
half to even), not 9. -/
theorem C1_scenario_counterexample :
    scoresOf (analyze_site (Except.ok c1page) c1fetch) ≠ some c1claimed := by
  rw [c1_eval]
  decide

/-- C1 (amended): on a page whose stylesheet text is the single rule
`a:hover` with braces enclosing `color:#123456`, whose markup has a `<nav>`,
a favicon link and an `aria-label` attribute, fetched in 0.3 s, the code
returns Simplicity 9, Navigation Ease 6, Personality 8, Delight 6,
Accessibility 7, Speed 10, Emotional Resonance 9 — the cohesion of the
single color is 10, and all scores are as claimed except Personality, which
is 8 because `round((10+1+6)/2) = round(8.5)` rounds half to even. -/
theorem C1_scenario_scores :
    scoresOf (analyze_site (Except.ok c1page) c1fetch) = some c1actual ∧
    count_colors c1css = 1 ∧ cohesion_from_colors (count_colors c1css) = 10 :=
  ⟨c1_eval, by decide, by decide⟩

/-- Full evaluation of the scorer on the plain witness page. -/
theorem c8_eval : scoresOf (analyze_site (Except.ok c8page) c8fetch) = some c8scores := by
  rw [analyze_ok]
  have hcss : fetch_css_assets c8page.cssHrefs c8fetch 3 = [] := by decide
  rw [hcss]
  rw [show count_colors [] = 0 from by decide]
  rw [show cohesion_from_colors 0 = 10 from by decide]
  rw [show hasSub (pyStr (":hover")) [] = false from by decide]
  simp only [c8page, Bool.false_eq_true, if_false]
  rw [if_neg (show ¬ ((2:ℚ) < 1) by norm_num)]
  have v1 : clamp_score ((((10:ℤ):ℚ) + 8) / 2) = 9 := by
    rw [clamp_score_int _ 9 (by norm_num)]; decide
  have v2 : clamp_score ((5:ℚ) + 0) = 5 := by
    rw [clamp_score_int _ 5 (by norm_num)]; decide
  have v3 : clamp_score ((((10:ℤ):ℚ) + 0 + 6) / 2) = 8 := by
    rw [clamp_score_int _ 8 (by norm_num)]; decide
  have v4 : clamp_score ((6:ℚ) + 0) = 6 := by
    rw [clamp_score_int _ 6 (by norm_num)]; decide
  have v5 : clamp_score (7:ℚ) = 7 := by
    rw [clamp_score_int _ 7 (by norm_num)]; decide
  rw [v1, v2, v3, v4, v5]
  rfl

/-- C8: whenever the analysis succeeds, the returned ScoreSet has exactly
the 7 recognized factor names, in order, and every score is an integer in
`[1, 10]`. -/
theorem C8_scoreset_invariants (res : Except String Page)
    (f : String → Option (List Char)) (s : List (String × Int))
    (h : scoresOf (analyze_site res f) = some s) :
    s.map Prod.fst = UX_FACTORS ∧ ∀ p ∈ s, 1 ≤ p.2 ∧ p.2 ≤ 10 := by
  cases res with
  | error e => simp [analyze_site, scoresOf, Except.toOption] at h
  | ok page =>
    rw [analyze_ok] at h
    simp only [Option.some.injEq] at h
    subst h
    refine ⟨rfl, ?_⟩
    intro p hp
    simp only [List.mem_cons, List.not_mem_nil, or_false] at hp
    rcases hp with rfl|rfl|rfl|rfl|rfl|rfl|rfl
    all_goals exact clamp_bounds _

/-- Witness for C8 at the concrete plain page and failing stylesheet
oracle. -/
theorem C8_scoreset_invariants_witness :
    c8scores.map Prod.fst = UX_FACTORS ∧ ∀ p ∈ c8scores, 1 ≤ p.2 ∧ p.2 ≤ 10 :=
  C8_scoreset_invariants (Except.ok c8page) c8fetch c8scores c8_eval
